import Mathlib

/-
Verification of the HealthKitBridge.h declaration surface
(src/Assets/Plugins/iOS/HealthKitBridge.h).

The repository consists of a single declaration-only C header: seven
`extern "C"` functions bridging a Unity scripting layer to iOS HealthKit.
We embed the header as data: each declaration becomes a `FunDecl` record
carrying its parameter types, return type, and the UnitySendMessage
callback target documented in its comment.  The implementation behind the
header is not part of the repository; where a claim concerns runtime
behavior we model that behavior from the spec and the header's
documentation comments, and say so in the doc comment of the definition.
-/

namespace HealthKitBridge

/-- C scalar types occurring in (or relevant to) the bridge ABI.
`pointer` is included so that the absence of pointer parameters in the
header is a meaningful statement, not an artifact of the model. -/
inductive CType where
  | void
  | int
  | longlong
  | pointer (pointee : CType)
deriving DecidableEq

/-- Whether a C type is a pointer type. -/
def CType.isPointer : CType → Bool
  | .pointer _ => true
  | _ => false

/-- A UnitySendMessage callback target documented in the header: the
receiver GameObject name and the method name invoked on it. -/
structure Callback where
  receiver : String
  method : String
deriving DecidableEq

/-- One C function declaration of the header: its name, parameter types
in order, return type, and the callback target its documentation comment
names (`none` when the comment documents no callback). -/
structure FunDecl where
  name : String
  params : List CType
  ret : CType
  callback : Option Callback
deriving DecidableEq

/-- The callback target documented for HealthKit_RequestAuthorization:
receiver "HealthKitReceiver", method "OnAuthorizationResult". -/
def authCallback : Callback :=
  ⟨"HealthKitReceiver", "OnAuthorizationResult"⟩

/-- The callback target documented for all three step queries:
receiver "HealthKitReceiver", method "OnStepsReceived". -/
def stepsCallback : Callback :=
  ⟨"HealthKitReceiver", "OnStepsReceived"⟩

/-- `int HealthKit_IsAvailable(void);` — no documented callback. -/
def HealthKit_IsAvailable : FunDecl :=
  ⟨"HealthKit_IsAvailable", [], .int, none⟩

/-- `int HealthKit_IsAuthorized(void);` — no documented callback. -/
def HealthKit_IsAuthorized : FunDecl :=
  ⟨"HealthKit_IsAuthorized", [], .int, none⟩

/-- `void HealthKit_RequestAuthorization(void);` — result sent via
UnitySendMessage to "HealthKitReceiver" / "OnAuthorizationResult". -/
def HealthKit_RequestAuthorization : FunDecl :=
  ⟨"HealthKit_RequestAuthorization", [], .void, some authCallback⟩

/-- `void HealthKit_GetStepsSince(long long timestampMillis);` — result
sent via UnitySendMessage to "HealthKitReceiver" / "OnStepsReceived". -/
def HealthKit_GetStepsSince : FunDecl :=
  ⟨"HealthKit_GetStepsSince", [.longlong], .void, some stepsCallback⟩

/-- `void HealthKit_GetStepsForRange(long long startMillis, long long endMillis);`
— result sent via UnitySendMessage to "HealthKitReceiver" / "OnStepsReceived". -/
def HealthKit_GetStepsForRange : FunDecl :=
  ⟨"HealthKit_GetStepsForRange", [.longlong, .longlong], .void, some stepsCallback⟩

/-- `void HealthKit_GetStepsToday(void);` — result sent via
UnitySendMessage to "HealthKitReceiver" / "OnStepsReceived". -/
def HealthKit_GetStepsToday : FunDecl :=
  ⟨"HealthKit_GetStepsToday", [], .void, some stepsCallback⟩

/-- `void HealthKit_OpenHealthApp(void);` — its comment documents no
callback, matching the spec's "no return value, no callback". -/
def HealthKit_OpenHealthApp : FunDecl :=
  ⟨"HealthKit_OpenHealthApp", [], .void, none⟩

/-- The full declaration list of the header, in source order. -/
def headerDecls : List FunDecl :=
  [HealthKit_IsAvailable, HealthKit_IsAuthorized, HealthKit_RequestAuthorization,
   HealthKit_GetStepsSince, HealthKit_GetStepsForRange, HealthKit_GetStepsToday,
   HealthKit_OpenHealthApp]

/-- Smallest value of a signed 64-bit integer (C `long long` on iOS). -/
def int64Min : Int := -(2 ^ 63)

/-- Largest value of a signed 64-bit integer (C `long long` on iOS). -/
def int64Max : Int := 2 ^ 63 - 1

/-- Smallest value of a signed 32-bit integer (C `int` on iOS). -/
def int32Min : Int := -(2 ^ 31)

/-- Largest value of a signed 32-bit integer (C `int` on iOS). -/
def int32Max : Int := 2 ^ 31 - 1

/-- A C scalar argument value as passed across the bridge. -/
inductive CValue where
  | intVal (n : Int)
  | longlongVal (n : Int)
deriving DecidableEq

/-- An argument value is well typed for a parameter type when it is the
matching scalar kind and lies in that type's representable range. -/
def CValue.wellTyped : CValue → CType → Bool
  | .intVal n, .int => decide (int32Min ≤ n ∧ n ≤ int32Max)
  | .longlongVal n, .longlong => decide (int64Min ≤ n ∧ n ≤ int64Max)
  | _, _ => false

/-- A declared function accepts an argument list exactly when the list
has the declared arity and each argument is well typed for the
corresponding declared parameter type; the header documents no further
precondition on any argument. -/
def acceptsArgs (f : FunDecl) (args : List CValue) : Bool :=
  args.length == f.params.length &&
    (List.zip args f.params).all fun p => CValue.wellTyped p.1 p.2

/-- The tri-state authorization condition of the step-count permission,
as documented for HealthKit_IsAuthorized. -/
inductive AuthStatus where
  | authorized
  | notAuthorized
  | notDetermined
deriving DecidableEq

/-- Modelled from the spec: the implementation of HealthKit_IsAuthorized
is not in the repository.  Per the header comment and the spec table it
returns 1 if authorized, 0 if not, -1 if not determined. -/
def HealthKit_IsAuthorized_impl : AuthStatus → Int
  | .authorized => 1
  | .notAuthorized => 0
  | .notDetermined => -1

/-- Modelled from the spec: the implementation of HealthKit_IsAvailable
is not in the repository.  Per the header comment and the spec table it
returns 1 if HealthKit is available on the device and 0 if not. -/
def HealthKit_IsAvailable_impl (available : Bool) : Int :=
  if available then 1 else 0

/-- The platform state the two synchronous status checks query: whether
HealthKit is available on the device and the step-count permission
status. -/
structure PlatformState where
  healthKitAvailable : Bool
  stepAuth : AuthStatus
deriving DecidableEq

/-- Modelled from the spec: a call to HealthKit_IsAvailable reads the
platform availability flag and returns its encoding; the spec states it
has no side effects beyond querying platform state, so the state is
returned unchanged and no callback is triggered. -/
def HealthKit_IsAvailable_step (s : PlatformState) : Int × PlatformState × List Callback :=
  ⟨HealthKit_IsAvailable_impl s.healthKitAvailable, s, []⟩

/-- Modelled from the spec: a call to HealthKit_IsAuthorized reads the
permission status and returns its tri-state encoding; the spec states it
has no side effects beyond querying platform state, so the state is
returned unchanged and no callback is triggered. -/
def HealthKit_IsAuthorized_step (s : PlatformState) : Int × PlatformState × List Callback :=
  ⟨HealthKit_IsAuthorized_impl s.stepAuth, s, []⟩

/-- Modelled from the spec: the synchronous part of a call to
HealthKit_GetStepsForRange returns nothing for every argument pair (the
declared return type is void and no validation contract is documented);
the step-count result flows only through the documented callback. -/
def HealthKit_GetStepsForRange_sync (startMillis endMillis : Int) : Unit :=
  ()

end HealthKitBridge

namespace HealthKitBridge

/-- C1: each of the seven declared functions has exactly the argument
types, arity, and return type of the spec's interface table: the
availability and authorization checks take no arguments and return int;
request-authorization, steps-for-today, and open-health-settings take no
arguments and return void; steps-since takes one 64-bit timestamp and
returns void; steps-for-range takes two 64-bit timestamps and returns
void. -/
theorem C1_interface_table :
    headerDecls.length = 7 ∧
    HealthKit_IsAvailable.params = [] ∧ HealthKit_IsAvailable.ret = CType.int ∧
    HealthKit_IsAuthorized.params = [] ∧ HealthKit_IsAuthorized.ret = CType.int ∧
    HealthKit_RequestAuthorization.params = [] ∧
    HealthKit_RequestAuthorization.ret = CType.void ∧
    HealthKit_GetStepsSince.params = [CType.longlong] ∧
    HealthKit_GetStepsSince.ret = CType.void ∧
    HealthKit_GetStepsForRange.params = [CType.longlong, CType.longlong] ∧
    HealthKit_GetStepsForRange.ret = CType.void ∧
    HealthKit_GetStepsToday.params = [] ∧ HealthKit_GetStepsToday.ret = CType.void ∧
    HealthKit_OpenHealthApp.params = [] ∧ HealthKit_OpenHealthApp.ret = CType.void := by
  refine ⟨rfl, rfl, rfl, rfl, rfl, rfl, rfl, rfl, rfl, rfl, rfl, rfl, rfl, rfl, rfl⟩

/-- C2: HealthKit_IsAuthorized takes no input, returns int, and its
modelled result is the documented tri-state: 1 exactly when authorized,
0 exactly when not authorized, -1 exactly when not determined, and no
other value ever occurs. -/
theorem C2_isAuthorized_tristate :
    HealthKit_IsAuthorized.params = [] ∧ HealthKit_IsAuthorized.ret = CType.int ∧
    (∀ s : AuthStatus,
      HealthKit_IsAuthorized_impl s = 1 ∨ HealthKit_IsAuthorized_impl s = 0 ∨
        HealthKit_IsAuthorized_impl s = -1) ∧
    (∀ s : AuthStatus, HealthKit_IsAuthorized_impl s = 1 ↔ s = AuthStatus.authorized) ∧
    (∀ s : AuthStatus, HealthKit_IsAuthorized_impl s = 0 ↔ s = AuthStatus.notAuthorized) ∧
    (∀ s : AuthStatus, HealthKit_IsAuthorized_impl s = -1 ↔ s = AuthStatus.notDetermined) := by
  refine ⟨rfl, rfl, ?_, ?_, ?_, ?_⟩ <;> intro s <;> cases s <;>
    simp [HealthKit_IsAuthorized_impl]

/-- C3: HealthKit_IsAvailable takes no input, returns int, and its
modelled result is 1 exactly when HealthKit is available on the device
and 0 exactly when it is not; no other value ever occurs. -/
theorem C3_isAvailable_boolean :
    HealthKit_IsAvailable.params = [] ∧ HealthKit_IsAvailable.ret = CType.int ∧
    HealthKit_IsAvailable_impl true = 1 ∧ HealthKit_IsAvailable_impl false = 0 ∧
    (∀ b : Bool, HealthKit_IsAvailable_impl b = 1 ∨ HealthKit_IsAvailable_impl b = 0) := by
  refine ⟨rfl, rfl, rfl, rfl, ?_⟩
  intro b
  cases b <;> simp [HealthKit_IsAvailable_impl]

/-- C4: HealthKit_RequestAuthorization takes no arguments, returns void,
and its documented result delivery is the single fixed callback target
receiver "HealthKitReceiver", method "OnAuthorizationResult". -/
theorem C4_requestAuthorization_callback :
    HealthKit_RequestAuthorization.params = [] ∧
    HealthKit_RequestAuthorization.ret = CType.void ∧
    HealthKit_RequestAuthorization.callback = some authCallback ∧
    authCallback.receiver = "HealthKitReceiver" ∧
    authCallback.method = "OnAuthorizationResult" := by
  refine ⟨rfl, rfl, rfl, rfl, rfl⟩

/-- C5 counterexample: it is false that all three step queries deliver to
the same fixed receiver and the same fixed method as the authorization
request's callback — the documented callback targets differ (the step
queries' method is "OnStepsReceived", the authorization request's is
"OnAuthorizationResult"). -/
theorem C5_counterexample :
    ¬ (HealthKit_GetStepsSince.callback = HealthKit_RequestAuthorization.callback ∧
       HealthKit_GetStepsForRange.callback = HealthKit_RequestAuthorization.callback ∧
       HealthKit_GetStepsToday.callback = HealthKit_RequestAuthorization.callback) := by
  intro h
  exact absurd h.1 (by decide)

/-- C5 amended: the three step queries all deliver to one fixed target,
receiver "HealthKitReceiver" and method "OnStepsReceived"; this shares
the receiver with the authorization request's callback but uses a
different method ("OnAuthorizationResult" for authorization). -/
theorem C5_step_queries_shared_callback :
    HealthKit_GetStepsSince.callback = some stepsCallback ∧
    HealthKit_GetStepsForRange.callback = some stepsCallback ∧
    HealthKit_GetStepsToday.callback = some stepsCallback ∧
    HealthKit_RequestAuthorization.callback = some authCallback ∧
    stepsCallback.receiver = authCallback.receiver ∧
    stepsCallback.method ≠ authCallback.method := by
  refine ⟨rfl, rfl, rfl, rfl, rfl, ?_⟩
  decide

/-- C6: HealthKit_GetStepsForRange accepts every pair of 64-bit
timestamps — no precondition such as start ≤ end is part of the declared
interface — and the synchronous part of the call returns nothing for
every such pair. -/
theorem C6_range_accepts_all_pairs (s e : Int)
    (hs1 : int64Min ≤ s) (hs2 : s ≤ int64Max)
    (he1 : int64Min ≤ e) (he2 : e ≤ int64Max) :
    acceptsArgs HealthKit_GetStepsForRange [CValue.longlongVal s, CValue.longlongVal e] = true ∧
    HealthKit_GetStepsForRange.ret = CType.void ∧
    HealthKit_GetStepsForRange_sync s e = () := by
  refine ⟨?_, rfl, rfl⟩
  simp [acceptsArgs, HealthKit_GetStepsForRange, CValue.wellTyped]
  exact ⟨⟨hs1, hs2⟩, he1, he2⟩

/-- C6 witness: a concrete pair with start greater than end (10 > 3) is
accepted and the synchronous call returns nothing. -/
theorem C6_range_accepts_all_pairs_witness :
    (10 : Int) > 3 ∧
    (acceptsArgs HealthKit_GetStepsForRange
        [CValue.longlongVal 10, CValue.longlongVal 3] = true ∧
      HealthKit_GetStepsForRange.ret = CType.void ∧
      HealthKit_GetStepsForRange_sync 10 3 = ()) :=
  ⟨by decide,
   C6_range_accepts_all_pairs 10 3 (by decide) (by decide) (by decide) (by decide)⟩

/-- C7: the two synchronous status checks are pure queries of platform
state — the modelled call leaves the state unchanged and triggers no
callback, and neither declaration documents a callback target. -/
theorem C7_status_checks_no_side_effects :
    (∀ s : PlatformState,
      (HealthKit_IsAvailable_step s).2.1 = s ∧ (HealthKit_IsAvailable_step s).2.2 = []) ∧
    (∀ s : PlatformState,
      (HealthKit_IsAuthorized_step s).2.1 = s ∧ (HealthKit_IsAuthorized_step s).2.2 = []) ∧
    HealthKit_IsAvailable.callback = none ∧ HealthKit_IsAuthorized.callback = none := by
  exact ⟨fun s => ⟨rfl, rfl⟩, fun s => ⟨rfl, rfl⟩, rfl, rfl⟩

/-- C8: HealthKit_OpenHealthApp takes no input, returns void, and unlike
the authorization request and the three step queries it has no callback
target at all. -/
theorem C8_openHealthApp_no_callback :
    HealthKit_OpenHealthApp.params = [] ∧ HealthKit_OpenHealthApp.ret = CType.void ∧
    HealthKit_OpenHealthApp.callback = none ∧
    HealthKit_RequestAuthorization.callback ≠ none ∧
    HealthKit_GetStepsSince.callback ≠ none ∧
    HealthKit_GetStepsForRange.callback ≠ none ∧
    HealthKit_GetStepsToday.callback ≠ none := by
  refine ⟨rfl, rfl, rfl, ?_, ?_, ?_, ?_⟩ <;> decide

/-- C9: both timestamp parameters have C type long long (signed 64-bit),
so every integer from -2^63 to 2^63 - 1 — negative timestamps included —
is representable and accepted by the declared interface. -/
theorem C9_timestamps_signed_64bit (n : Int)
    (h1 : int64Min ≤ n) (h2 : n ≤ int64Max) :
    HealthKit_GetStepsSince.params = [CType.longlong] ∧
    HealthKit_GetStepsForRange.params = [CType.longlong, CType.longlong] ∧
    acceptsArgs HealthKit_GetStepsSince [CValue.longlongVal n] = true ∧
    acceptsArgs HealthKit_GetStepsForRange
      [CValue.longlongVal n, CValue.longlongVal n] = true := by
  refine ⟨rfl, rfl, ?_, ?_⟩ <;>
    simp [acceptsArgs, HealthKit_GetStepsSince, HealthKit_GetStepsForRange,
      CValue.wellTyped] <;>
    simp [h1, h2]

/-- C9 witness: the negative timestamp -1 (an instant before the epoch)
lies in the signed 64-bit range and is accepted by both step-query
declarations. -/
theorem C9_timestamps_signed_64bit_witness :
    int64Min ≤ (-1 : Int) ∧ (-1 : Int) ≤ int64Max ∧
    (HealthKit_GetStepsSince.params = [CType.longlong] ∧
      HealthKit_GetStepsForRange.params = [CType.longlong, CType.longlong] ∧
      acceptsArgs HealthKit_GetStepsSince [CValue.longlongVal (-1)] = true ∧
      acceptsArgs HealthKit_GetStepsForRange
        [CValue.longlongVal (-1), CValue.longlongVal (-1)] = true) :=
  ⟨by decide, by decide, C9_timestamps_signed_64bit (-1) (by decide) (by decide)⟩

/-- A declared function exposes no memory channel when none of its
parameters is a pointer and its return type is not a pointer. -/
def noMemoryChannel (f : FunDecl) : Bool :=
  (f.params.all fun t => !t.isPointer) && !f.ret.isPointer

/-- C10: no declared function carries step data through its return value
or through pointer parameters: every declaration in the header is free of
pointer parameters and pointer returns, the only non-void return types
are the two int status checks, and every void-returning operation other
than open-health-settings names a callback target for its results. -/
theorem C10_no_output_parameters :
    (headerDecls.all fun f => noMemoryChannel f) = true ∧
    (headerDecls.all fun f =>
      (f.ret == CType.void) ||
        (f.name == "HealthKit_IsAvailable" || f.name == "HealthKit_IsAuthorized")) = true ∧
    (headerDecls.all fun f =>
      !(f.ret == CType.int) || (f.callback == none)) = true ∧
    (headerDecls.all fun f =>
      !(f.callback == none) || f.name == "HealthKit_IsAvailable" ||
        f.name == "HealthKit_IsAuthorized" || f.name == "HealthKit_OpenHealthApp") = true := by
  refine ⟨?_, ?_, ?_, ?_⟩ <;> decide

end HealthKitBridge
